import Mathlib

/-!
Shallow embedding of the matrix-factorization rating engine of the
`rec_sys` repository.

Two variants of the engine exist in the source:

* `Part000` — the variant in `src/unnamed/part_000`: global `model` /
  `isTraining` / `trainingStartTime` state, `createModel` allocating
  embedding tables of `numUsers + 1` and `numMovies + 1` rows, a
  single-flight guard in `trainModel`, a `try/catch/finally` around
  training, and a `predictRating` that checks `!model`, checks the falsy
  `!userId || !movieId` guard, then displays the dot product clamped
  into [1,5].
* `Week3` — the variant in `src/week3/script.js`: `createModel`
  allocating tables of exactly `numUsers` / `numMovies` rows,
  `trainModel` with no re-entrancy guard (epochs 5, no validation
  split), and a `predictRating` that displays the raw dot product with
  no clamping and no guards.

Machine reals are modelled by `ℚ`; the random table initializer is a
parameter `init : Nat → Nat → ℚ` (row, column ↦ initial entry), which
captures "small random values" without fixing a seed.
-/

namespace RecSys

/-- A rating observation `{userId, movieId, rating}` as produced by the
data-loading collaborator. -/
structure Rating where
  userId : Nat
  movieId : Nat
  rating : ℚ
deriving Repr, DecidableEq

/-- A latent-factor (embedding) table: a list of rows, one per id, each
a vector of `latentDim` entries. -/
abbrev Table := List (List ℚ)

/-- The matrix-factorization model: the pair of embedding tables plus
the fixed latent dimension, as assembled by `createModel` in both
variants (`tf.model({inputs: [userInput, movieInput], outputs: dotProduct})`). -/
structure MFModel where
  userTable : Table
  movieTable : Table
  latentDim : Nat
deriving Repr, DecidableEq

/-- Dot product of two latent vectors — the scoring function
`tf.layers.dot({axes: 1}).apply([userVector, movieVector])`. -/
def dotProduct (u v : List ℚ) : ℚ :=
  (List.zipWith (· * ·) u v).sum

/-- Embedding lookup: row `i` of a table, the semantics of feeding id
`i` through `tf.layers.embedding`.  Out-of-range ids fall through to an
empty row (the lookup is never bounds-checked in the source). -/
def lookupRow (t : Table) (i : Nat) : List ℚ :=
  t.getD i []

/-- The optimizer passed to `model.compile` in both variants. -/
inductive Optimizer where
  | adam (learningRate : ℚ)
deriving Repr, DecidableEq

/-- The loss passed to `model.compile` in both variants. -/
inductive LossKind where
  | meanSquaredError
deriving Repr, DecidableEq

/-- The arguments of `model.compile`. -/
structure CompileConfig where
  optimizer : Optimizer
  loss : LossKind
deriving Repr, DecidableEq

/-- The scalar options passed to `model.fit`. A `validationSplit` that
is not supplied in the source defaults to `0` (the `tf.LayersModel.fit`
default). -/
structure FitConfig where
  epochs : Nat
  batchSize : Nat
  validationSplit : ℚ
deriving Repr, DecidableEq

namespace Part000

/-- `createModel(numUsers, numMovies, latentDim)` of `part_000`
(lines 82–123): embedding tables with `inputDim: numUsers + 1` and
`inputDim: numMovies + 1` rows ("Adding 1 to inputDim to account for
0-based indexing"), each row a vector of `latentDim` initial entries. -/
def createModel (init : Nat → Nat → ℚ) (numUsers numMovies latentDim : Nat) :
    MFModel where
  userTable :=
    (List.range (numUsers + 1)).map fun i =>
      (List.range latentDim).map fun j => init i j
  movieTable :=
    (List.range (numMovies + 1)).map fun i =>
      (List.range latentDim).map fun j => init i j
  latentDim := latentDim

/-- `model.compile({optimizer: tf.train.adam(0.001), loss: 'meanSquaredError'})`
(lines 146–149). -/
def compileConfig : CompileConfig :=
  { optimizer := .adam (1 / 1000), loss := .meanSquaredError }

/-- The options of the `model.fit` call (lines 168–184):
`epochs: 10, batchSize: 64, validationSplit: 0.1`. -/
def fitConfig : FitConfig :=
  { epochs := 10, batchSize := 64, validationSplit := 1 / 10 }

/-- Training-tensor preparation (line 155): `ratings.map(r => r.userId)`
— raw ids, no shift. -/
def userInputs (ratings : List Rating) : List Nat :=
  ratings.map Rating.userId

/-- Training-tensor preparation (line 156): `ratings.map(r => r.movieId)`
— raw ids, no shift. -/
def movieInputs (ratings : List Rating) : List Nat :=
  ratings.map Rating.movieId

/-- Training-target preparation (line 157): `ratings.map(r => r.rating)`. -/
def ratingTargets (ratings : List Rating) : List ℚ :=
  ratings.map Rating.rating

/-- `populateUserDropdown` (lines 35–51): the option values are the
unique user ids of the ratings, sorted ascending — the raw ids, with no
shift (`option.value = userId`). -/
def dropdownUserIds (ratings : List Rating) : List Nat :=
  ((ratings.map Rating.userId).dedup).mergeSort (· ≤ ·)

/-- The global mutable state of `part_000`: `model`, `isTraining`,
`trainingStartTime`, the `#result` display contents, and the
`predict-btn` disabled flag. -/
structure AppState where
  model : Option MFModel
  isTraining : Bool
  trainingStartTime : Option Nat
  resultMessage : String
  predictBtnEnabled : Bool
deriving Repr, DecidableEq

/-- Outcome of the asynchronous `model.fit` call, abstracting whether
the optimization loop completes or fails (e.g., a malformed rating). -/
inductive FitOutcome where
  | ok
  | fail (cause : String)
deriving Repr, DecidableEq

/-- The error the specification expects `train` to surface on a failure
inside the optimization loop.  No such class exists in the source; the
type records what a propagated error would be. -/
inductive TrainError where
  | trainingFailed (cause : String)
deriving Repr, DecidableEq

/-- The synchronous prefix of `trainModel` up to the `await model.fit`
suspension point (lines 136–167): sets `isTraining = true`, records the
start time, assigns `model = createModel(numUsers, numMovies, 15)`, and
updates the result display. -/
def trainStart (init : Nat → Nat → ℚ) (numUsers numMovies : Nat) (now : Nat)
    (s : AppState) : AppState :=
  { s with
    isTraining := true
    trainingStartTime := some now
    model := some (createModel init numUsers numMovies 15)
    resultMessage := "Training model..." }

/-- The continuation of `trainModel` after the `await model.fit`
suspension (lines 168–203).  On success the result display announces
completion and the predict button is enabled; on failure the `catch`
block (lines 198–200) writes `Training failed: <cause>` to the display.
The `finally` block (lines 201–203) clears `isTraining` on both paths. -/
def trainFinish (fit : FitOutcome) (s : AppState) : AppState :=
  match fit with
  | .ok =>
      { s with
        isTraining := false
        resultMessage := "Model trained successfully! Ready for predictions."
        predictBtnEnabled := true }
  | .fail cause =>
      { s with
        isTraining := false
        resultMessage := "Training failed: " ++ cause }

/-- `trainModel` of `part_000` (lines 129–204).  The single-flight
guard (lines 130–133) returns immediately when `isTraining` is set.
The second component is what the caller of the async function observes:
the `catch` block never rethrows, so the promise always resolves
normally (`Except.ok ()`); a propagated `TrainError` never occurs. -/
def trainModel (init : Nat → Nat → ℚ) (numUsers numMovies : Nat) (now : Nat)
    (fit : FitOutcome) (s : AppState) : AppState × Except TrainError Unit :=
  if s.isTraining then
    (s, Except.ok ())
  else
    (trainFinish fit (trainStart init numUsers numMovies now s), Except.ok ())

/-- What `predictRating` writes to the result display. -/
inductive PredictOutcome where
  | notReady
  | selectPrompt
  | predicted (display : ℚ)
deriving Repr, DecidableEq

/-- The clamp applied before display (line 248):
`Math.min(Math.max(rating, 1), 5)`. -/
def clampRating (x : ℚ) : ℚ :=
  min (max x 1) 5

/-- `predictRating` of `part_000` (lines 210–261): returns the
not-ready message when `model` is null (lines 211–214); returns the
selection prompt when `!userId || !movieId` — i.e. when either parsed
id is the falsy `0` (lines 221–224); otherwise feeds both ids through
the model (embedding lookup and dot product) and displays the clamped
result. -/
def predictRating (model : Option MFModel) (userId movieId : Nat) :
    PredictOutcome :=
  match model with
  | none => .notReady
  | some m =>
      if userId = 0 ∨ movieId = 0 then
        .selectPrompt
      else
        .predicted
          (clampRating
            (dotProduct (lookupRow m.userTable userId)
              (lookupRow m.movieTable movieId)))

end Part000

namespace Week3

/-- `createModel(numUsers, numMovies, latentDim = 20)` of
`src/week3/script.js` (lines 42–69): embedding tables with
`inputDim: numUsers` and `inputDim: numMovies` rows — no extra slot —
each row a vector of `latentDim` initial entries
(`embeddingsInitializer: "randomNormal"`). -/
def createModel (init : Nat → Nat → ℚ) (numUsers numMovies : Nat)
    (latentDim : Nat := 20) : MFModel where
  userTable :=
    (List.range numUsers).map fun i =>
      (List.range latentDim).map fun j => init i j
  movieTable :=
    (List.range numMovies).map fun i =>
      (List.range latentDim).map fun j => init i j
  latentDim := latentDim

/-- `model.compile({optimizer: tf.train.adam(0.001), loss: "meanSquaredError"})`
(lines 81–84). -/
def compileConfig : CompileConfig :=
  { optimizer := .adam (1 / 1000), loss := .meanSquaredError }

/-- The options of the `model.fit` call (lines 96–100):
`batchSize: 64, epochs: 5`, and no `validationSplit` — which therefore
takes the `tf.LayersModel.fit` default `0`. -/
def fitConfig : FitConfig :=
  { epochs := 5, batchSize := 64, validationSplit := 0 }

/-- `predictRating` of `src/week3/script.js` (lines 108–120): no model
guard, no id guard, no bounds check — it feeds the two parsed ids
through the model and displays the raw dot product
(`rating.toFixed(2)`), with no clamping. -/
def predictRating (model : MFModel) (userId movieId : Nat) : ℚ :=
  dotProduct (lookupRow model.userTable userId)
    (lookupRow model.movieTable movieId)

end Week3

/-! ## Helper lemmas -/

theorem clampRating_ge_one (x : ℚ) : 1 ≤ Part000.clampRating x :=
  le_min (le_max_right x 1) (by norm_num)

theorem clampRating_le_five (x : ℚ) : Part000.clampRating x ≤ 5 :=
  min_le_right _ _

theorem part000_userTable_length (init : Nat → Nat → ℚ)
    (numUsers numMovies latentDim : Nat) :
    (Part000.createModel init numUsers numMovies latentDim).userTable.length =
      numUsers + 1 := by
  simp [Part000.createModel]

theorem part000_movieTable_length (init : Nat → Nat → ℚ)
    (numUsers numMovies latentDim : Nat) :
    (Part000.createModel init numUsers numMovies latentDim).movieTable.length =
      numMovies + 1 := by
  simp [Part000.createModel]

/-! ## Claim theorems -/

/-- Claim C1, counterexample: in the `week3` variant, `predictRating`
does not clamp.  On a model whose two single-entry tables give the dot
product `6`, the displayed rating is `6`, outside `[1,5]`. -/
theorem week3_predict_unclamped_counterexample :
    Week3.predictRating ⟨[[3]], [[2]], 1⟩ 0 0 = 6 ∧
      ¬ Week3.predictRating ⟨[[3]], [[2]], 1⟩ 0 0 ≤ 5 := by
  constructor
  · norm_num [Week3.predictRating, dotProduct, lookupRow]
  · norm_num [Week3.predictRating, dotProduct, lookupRow]

/-- Claim C1, amended: in the `part_000` variant, for any model and any
pair of nonzero ids that pass the guards, `predictRating` displays the
dot product of the two looked-up latent vectors clamped into `[1,5]`,
and that displayed value always lies in `[1,5]`. -/
theorem part000_predict_clamps_into_interval (m : MFModel)
    (userId movieId : Nat) (hu : userId ≠ 0) (hm : movieId ≠ 0) :
    Part000.predictRating (some m) userId movieId =
      .predicted (Part000.clampRating
        (dotProduct (lookupRow m.userTable userId)
          (lookupRow m.movieTable movieId))) ∧
    1 ≤ Part000.clampRating
        (dotProduct (lookupRow m.userTable userId)
          (lookupRow m.movieTable movieId)) ∧
    Part000.clampRating
        (dotProduct (lookupRow m.userTable userId)
          (lookupRow m.movieTable movieId)) ≤ 5 := by
  refine ⟨?_, clampRating_ge_one _, clampRating_le_five _⟩
  simp [Part000.predictRating, hu, hm]

/-- Witness for C1 at a concrete model and ids: the dot product is `6`,
which is clamped down to `5`. -/
theorem part000_predict_clamps_into_interval_witness :
    Part000.predictRating (some ⟨[[0], [2]], [[0], [3]], 1⟩) 1 1 =
      .predicted (Part000.clampRating
        (dotProduct (lookupRow [[0], [2]] 1) (lookupRow [[0], [3]] 1))) ∧
    1 ≤ Part000.clampRating
        (dotProduct (lookupRow [[0], [2]] 1) (lookupRow [[0], [3]] 1)) ∧
    Part000.clampRating
        (dotProduct (lookupRow [[0], [2]] 1) (lookupRow [[0], [3]] 1)) ≤ 5 :=
  part000_predict_clamps_into_interval ⟨[[0], [2]], [[0], [3]], 1⟩ 1 1
    (by decide) (by decide)

/-- Claim C2: a `trainModel` call made while `isTraining` is set returns
immediately: the global state is unchanged (model, flag, start time,
display, button) and no error is raised — the promise resolves normally. -/
theorem part000_train_single_flight_noop (init : Nat → Nat → ℚ)
    (numUsers numMovies now : Nat) (fit : Part000.FitOutcome)
    (s : Part000.AppState) (h : s.isTraining = true) :
    Part000.trainModel init numUsers numMovies now fit s = (s, Except.ok ()) := by
  simp [Part000.trainModel, h]

/-- Witness for C2: a concrete in-progress state is returned untouched. -/
theorem part000_train_single_flight_noop_witness :
    Part000.trainModel (fun _ _ => 0) 3 4 7 .ok
        ⟨some ⟨[[1]], [[1]], 1⟩, true, some 2, "Training model...", false⟩ =
      (⟨some ⟨[[1]], [[1]], 1⟩, true, some 2, "Training model...", false⟩,
        Except.ok ()) :=
  part000_train_single_flight_noop (fun _ _ => 0) 3 4 7 .ok
    ⟨some ⟨[[1]], [[1]], 1⟩, true, some 2, "Training model...", false⟩ rfl

/-- Claim C9: in the `part_000` variant, whenever the selected
`userId` or `movieId` is `0` (falsy), `predictRating` returns the
selection prompt and never reaches the model — no prediction outcome is
possible, even though a model is present. -/
theorem part000_predict_falsy_zero_guard (m : MFModel) (userId movieId : Nat)
    (h : userId = 0 ∨ movieId = 0) :
    Part000.predictRating (some m) userId movieId = .selectPrompt ∧
    ∀ q : ℚ, Part000.predictRating (some m) userId movieId ≠ .predicted q := by
  refine ⟨?_, ?_⟩ <;> simp [Part000.predictRating, h]

/-- Witness for C9 at `userId = 0` with a concrete model: index `0` is
inside the table range, yet the guard fires. -/
theorem part000_predict_falsy_zero_guard_witness :
    Part000.predictRating (some ⟨[[1]], [[1]], 1⟩) 0 0 = .selectPrompt ∧
    ∀ q : ℚ, Part000.predictRating (some ⟨[[1]], [[1]], 1⟩) 0 0 ≠ .predicted q :=
  part000_predict_falsy_zero_guard ⟨[[1]], [[1]], 1⟩ 0 0 (Or.inl rfl)

/-- Claim C3, counterexample: when the fit fails, the `catch` block of
`trainModel` writes `Training failed: <cause>` to the display and does
not rethrow, so the caller observes a normal return (`Except.ok ()`),
not a propagated `TrainingFailedError`.  The flag is cleared. -/
theorem part000_train_failure_not_propagated_counterexample :
    (Part000.trainModel (fun _ _ => 1 / 2) 3 4 0 (.fail "boom")
        ⟨none, false, none, "", false⟩).2 = Except.ok () ∧
    (Part000.trainModel (fun _ _ => 1 / 2) 3 4 0 (.fail "boom")
        ⟨none, false, none, "", false⟩).1.resultMessage =
      "Training failed: boom" ∧
    (Part000.trainModel (fun _ _ => 1 / 2) 3 4 0 (.fail "boom")
        ⟨none, false, none, "", false⟩).1.isTraining = false :=
  ⟨rfl, rfl, rfl⟩

/-- Claim C3, amended: for every `trainModel` run started while no
training is in progress, the `finally` block clears `isTraining` on
both the success and the failure path; a failure inside the loop is
caught inside `trainModel`, reported by setting the result display to
`Training failed: <cause>`, and the call returns normally to its caller
— no error object propagates. -/
theorem part000_train_clears_flag_and_reports (init : Nat → Nat → ℚ)
    (numUsers numMovies now : Nat) (fit : Part000.FitOutcome)
    (s : Part000.AppState) (h : s.isTraining = false) :
    (Part000.trainModel init numUsers numMovies now fit s).1.isTraining =
      false ∧
    (Part000.trainModel init numUsers numMovies now fit s).2 =
      Except.ok () ∧
    (∀ cause, fit = .fail cause →
      (Part000.trainModel init numUsers numMovies now fit s).1.resultMessage =
        "Training failed: " ++ cause) := by
  refine ⟨?_, ?_, ?_⟩ <;>
    cases fit <;>
      simp_all [Part000.trainModel, Part000.trainFinish, Part000.trainStart]

/-- Witness for C3 at a concrete idle state and a failing fit. -/
theorem part000_train_clears_flag_and_reports_witness :
    (Part000.trainModel (fun _ _ => 0) 2 2 5 (.fail "oops")
        ⟨none, false, none, "", false⟩).1.isTraining = false ∧
    (Part000.trainModel (fun _ _ => 0) 2 2 5 (.fail "oops")
        ⟨none, false, none, "", false⟩).2 = Except.ok () ∧
    (∀ cause, Part000.FitOutcome.fail "oops" = .fail cause →
      (Part000.trainModel (fun _ _ => 0) 2 2 5 (.fail "oops")
          ⟨none, false, none, "", false⟩).1.resultMessage =
        "Training failed: " ++ cause) :=
  part000_train_clears_flag_and_reports (fun _ _ => 0) 2 2 5 (.fail "oops")
    ⟨none, false, none, "", false⟩ rfl

/-- Claim C4: `part_000` performs no bounds check and has no
`OutOfRangeError` path.  At the specification's failing input —
`userId = 5, movieId = 0` against a model built with `numUsers = 3` —
`predictRating` returns the selection prompt (because `0` is falsy),
not an out-of-range failure; and in the `week3` variant the same call
reaches the unchecked embedding lookup and displays a number. -/
theorem part000_predict_out_of_range_no_error :
    Part000.predictRating
        (some (Part000.createModel (fun _ _ => 1 / 2) 3 4 15)) 5 0 =
      .selectPrompt ∧
    Week3.predictRating (Week3.createModel (fun _ _ => 1 / 2) 3 4) 5 0 = 0 := by
  constructor
  · rfl
  · decide

/-- Claim C5, amended: `predictRating` returns the not-ready message
exactly when the `model` global is null, i.e. before the first
`trainModel` call has assigned it; once a train call has created the
model — including while training is still in flight and after a failed
run — `predictRating` proceeds past the guard. -/
theorem part000_predict_not_ready_iff_no_model (mo : Option MFModel)
    (userId movieId : Nat) :
    Part000.predictRating mo userId movieId = .notReady ↔ mo = none := by
  cases mo with
  | none => simp [Part000.predictRating]
  | some m =>
      by_cases h : userId = 0 ∨ movieId = 0 <;> simp [Part000.predictRating, h]

/-- Claim C5, counterexample: the claim as stated fails on the code.
At the `model.fit` suspension point the state has `isTraining = true`
and a non-null model, and `predictRating` there returns a prediction,
not `ModelNotReadyError`; likewise after a failed run (`Idle` with the
partially-trained model left in place), `predictRating` succeeds. -/
theorem part000_predict_during_training_counterexample :
    (Part000.trainStart (fun _ _ => 1 / 2) 3 4 0
        ⟨none, false, none, "", false⟩).isTraining = true ∧
    Part000.predictRating
        (Part000.trainStart (fun _ _ => 1 / 2) 3 4 0
          ⟨none, false, none, "", false⟩).model 1 1 =
      .predicted (15 / 4) ∧
    (Part000.trainModel (fun _ _ => 1 / 2) 3 4 0 (.fail "boom")
        ⟨none, false, none, "", false⟩).1.isTraining = false ∧
    Part000.predictRating
        (Part000.trainModel (fun _ _ => 1 / 2) 3 4 0 (.fail "boom")
          ⟨none, false, none, "", false⟩).1.model 1 1 =
      .predicted (15 / 4) := by
  refine ⟨rfl, ?_, rfl, ?_⟩ <;>
    norm_num [Part000.trainModel, Part000.trainStart, Part000.trainFinish,
      Part000.predictRating, Part000.createModel, Part000.clampRating,
      dotProduct, lookupRow, List.range_succ]

/-- Claim C6, counterexample: with the positive arguments
`numUsers = 3, numMovies = 4, latentDim = 2`, the `part_000`
`createModel` returns a user table of `4` rows, not the requested `3`
(and it performs no validation at all, so no `InvalidDimensionError`
exists to be raised). -/
theorem part000_create_model_size_counterexample :
    (Part000.createModel (fun _ _ => 0) 3 4 2).userTable.length = 4 ∧
    (Part000.createModel (fun _ _ => 0) 3 4 2).userTable.length ≠ 3 := by
  decide

/-- Claim C6, amended: `createModel` performs no dimension validation
(it is total, also at zero sizes, and no `InvalidDimensionError` exists
in the source); the `part_000` variant returns tables of `numUsers + 1`
and `numMovies + 1` rows, the `week3` variant tables of exactly
`numUsers` and `numMovies` rows, every row of length `latentDim`. -/
theorem create_model_table_sizes (init : Nat → Nat → ℚ)
    (numUsers numMovies latentDim : Nat) :
    (Part000.createModel init numUsers numMovies latentDim).userTable.length =
      numUsers + 1 ∧
    (Part000.createModel init numUsers numMovies latentDim).movieTable.length =
      numMovies + 1 ∧
    (∀ row ∈ (Part000.createModel init numUsers numMovies latentDim).userTable,
      row.length = latentDim) ∧
    (∀ row ∈ (Part000.createModel init numUsers numMovies latentDim).movieTable,
      row.length = latentDim) ∧
    (Week3.createModel init numUsers numMovies latentDim).userTable.length =
      numUsers ∧
    (Week3.createModel init numUsers numMovies latentDim).movieTable.length =
      numMovies ∧
    (∀ row ∈ (Week3.createModel init numUsers numMovies latentDim).userTable,
      row.length = latentDim) ∧
    (∀ row ∈ (Week3.createModel init numUsers numMovies latentDim).movieTable,
      row.length = latentDim) := by
  refine ⟨part000_userTable_length init numUsers numMovies latentDim,
    part000_movieTable_length init numUsers numMovies latentDim,
    ?_, ?_, ?_, ?_, ?_, ?_⟩ <;>
    simp [Part000.createModel, Week3.createModel]

/-- Claim C8, counterexample: the `week3` variant trains with
`epochs: 5` and no validation split, not the claimed defaults
`epochs = 10`, `validationSplit = 0.1`. -/
theorem week3_fit_epochs_counterexample :
    Week3.fitConfig.epochs = 5 ∧ Week3.fitConfig.epochs ≠ 10 ∧
    Week3.fitConfig.validationSplit = 0 ∧
    Week3.fitConfig.validationSplit ≠ 1 / 10 := by
  refine ⟨rfl, by decide, rfl, ?_⟩
  norm_num [Week3.fitConfig]

/-- Claim C8, amended: the `part_000` variant compiles with the Adam
optimizer at learning rate `0.001` and a mean-squared-error loss and
fits with `epochs = 10`, `batchSize = 64`, `validationSplit = 0.1`
(so `tf.LayersModel.fit` holds out the last tenth of the data); the
`week3` variant uses the same optimizer and loss but `epochs = 5`,
`batchSize = 64`, and no validation split. -/
theorem training_configs :
    Part000.fitConfig.epochs = 10 ∧
    Part000.fitConfig.batchSize = 64 ∧
    Part000.fitConfig.validationSplit = 1 / 10 ∧
    Part000.compileConfig.optimizer = .adam (1 / 1000) ∧
    Part000.compileConfig.loss = .meanSquaredError ∧
    Week3.fitConfig.epochs = 5 ∧
    Week3.fitConfig.batchSize = 64 ∧
    Week3.fitConfig.validationSplit = 0 ∧
    Week3.compileConfig.optimizer = .adam (1 / 1000) ∧
    Week3.compileConfig.loss = .meanSquaredError :=
  ⟨rfl, rfl, rfl, rfl, rfl, rfl, rfl, rfl, rfl, rfl⟩

/-- Claim C10: in the `part_000` variant both tables have one extra
row (`numUsers + 1`, `numMovies + 1`), and every lookup site — the
training-tensor preparation, the dropdown option values, and the
prediction indices — uses raw 1-based ids unchanged, so every id with
`1 ≤ userId ≤ numUsers` / `1 ≤ movieId ≤ numMovies` indexes strictly
within table bounds. -/
theorem part000_one_based_ids_within_bounds (init : Nat → Nat → ℚ)
    (numUsers numMovies latentDim : Nat) (ratings : List Rating)
    (hr : ∀ r ∈ ratings, 1 ≤ r.userId ∧ r.userId ≤ numUsers ∧
      1 ≤ r.movieId ∧ r.movieId ≤ numMovies) :
    (∀ i ∈ Part000.userInputs ratings,
      i < (Part000.createModel init numUsers numMovies latentDim).userTable.length) ∧
    (∀ i ∈ Part000.movieInputs ratings,
      i < (Part000.createModel init numUsers numMovies latentDim).movieTable.length) ∧
    (∀ i ∈ Part000.dropdownUserIds ratings,
      i < (Part000.createModel init numUsers numMovies latentDim).userTable.length) ∧
    (∀ userId, 1 ≤ userId → userId ≤ numUsers →
      userId < (Part000.createModel init numUsers numMovies latentDim).userTable.length) ∧
    (∀ movieId, 1 ≤ movieId → movieId ≤ numMovies →
      movieId < (Part000.createModel init numUsers numMovies latentDim).movieTable.length) := by
  have hU := part000_userTable_length init numUsers numMovies latentDim
  have hM := part000_movieTable_length init numUsers numMovies latentDim
  rw [hU, hM]
  refine ⟨?_, ?_, ?_, ?_, ?_⟩
  · intro i hi
    obtain ⟨r, hrm, rfl⟩ := List.mem_map.mp hi
    have h := hr r hrm
    omega
  · intro i hi
    obtain ⟨r, hrm, rfl⟩ := List.mem_map.mp hi
    have h := hr r hrm
    omega
  · intro i hi
    rw [Part000.dropdownUserIds, List.mem_mergeSort, List.mem_dedup] at hi
    obtain ⟨r, hrm, rfl⟩ := List.mem_map.mp hi
    have h := hr r hrm
    omega
  · intro userId h1 h2
    omega
  · intro movieId h1 h2
    omega

/-- Witness for C10 at a concrete rating list inside the id ranges. -/
theorem part000_one_based_ids_within_bounds_witness :
    (∀ i ∈ Part000.userInputs [⟨1, 1, 5⟩, ⟨3, 4, 3⟩],
      i < (Part000.createModel (fun _ _ => 0) 3 4 2).userTable.length) ∧
    (∀ i ∈ Part000.movieInputs [⟨1, 1, 5⟩, ⟨3, 4, 3⟩],
      i < (Part000.createModel (fun _ _ => 0) 3 4 2).movieTable.length) ∧
    (∀ i ∈ Part000.dropdownUserIds [⟨1, 1, 5⟩, ⟨3, 4, 3⟩],
      i < (Part000.createModel (fun _ _ => 0) 3 4 2).userTable.length) ∧
    (∀ userId, 1 ≤ userId → userId ≤ 3 →
      userId < (Part000.createModel (fun _ _ => 0) 3 4 2).userTable.length) ∧
    (∀ movieId, 1 ≤ movieId → movieId ≤ 4 →
      movieId < (Part000.createModel (fun _ _ => 0) 3 4 2).movieTable.length) :=
  part000_one_based_ids_within_bounds (fun _ _ => 0) 3 4 2
    [⟨1, 1, 5⟩, ⟨3, 4, 3⟩] (by decide)

end RecSys
